import Mathlib

/-!
Verification of the docker-offload-demo status application.

This file gives a shallow embedding, in Lean 4, of the decision logic of the
repository: the GPU detection probe `checkGPUSupport`, the offload detection
probe `checkDockerOffload` and the system snapshot `getSystemInfo` from the
enhanced `app.js` (embedded in the enhancement script), and the `getGPUInfo`
probe of the top-level `app.js`.  JavaScript strings are modelled by `String`,
JavaScript numbers by `Int` / `Rat` (exact arithmetic idealising IEEE doubles),
`process.env.X` by `Option String` (a variable is absent or holds a string),
and the outcome of spawning the external `nvidia-smi` subprocess by an explicit
`ToolOutcome` argument.  A caught JavaScript exception is modelled by an
explicit boolean input or by collapsing to the catch branch's value.
-/

/-- Truthiness of a JavaScript environment variable lookup: `process.env.X` is
`undefined` (here `none`) or a string, and the only falsy string is `""`. -/
def envTruthy : Option String → Bool
  | none => false
  | some s => !(s == "")

/-- Embedding of JavaScript `String.prototype.split` with a non-empty
separator, on character lists.  `c0 :: sep` is the separator; the `fuel`
argument only bounds the recursion and any `fuel ≥ s.length` computes the
split (each step consumes at least one character). -/
def splitGo (c0 : Char) (sep : List Char) : Nat → List Char → List (List Char)
  | _, [] => [[]]
  | 0, s => [s]
  | fuel + 1, c :: cs =>
    if (c0 :: sep).isPrefixOf (c :: cs) then
      [] :: splitGo c0 sep fuel (cs.drop sep.length)
    else
      match splitGo c0 sep fuel cs with
      | [] => [[c]]
      | h :: t => (c :: h) :: t

/-- JavaScript `s.split(sep)` for a non-empty string separator (the code only
ever splits on `"\n"` and `", "`; the empty-separator behaviour of JavaScript
is never exercised and the catch-all arm is unreachable here). -/
def jsSplit (sep s : String) : List String :=
  match sep.toList with
  | [] => [s]
  | c :: cs => (splitGo c cs s.toList.length s.toList).map (fun l => String.mk l)

/-- JavaScript `s.trim()`: strip whitespace from both ends (the ASCII
whitespace characters; the extra Unicode space characters JavaScript also
strips never occur in the strings involved). -/
def jsTrim (s : String) : String :=
  String.mk (((s.toList.dropWhile Char.isWhitespace).reverse.dropWhile
    Char.isWhitespace).reverse)

/-- Maximal leading run of decimal digits, as a number; `none` when there is
no leading digit (the `NaN` outcome of `parseInt`). -/
def parseDigits (cs : List Char) : Option Nat :=
  let ds := cs.takeWhile Char.isDigit
  if ds = [] then none
  else some (ds.foldl (fun n c => 10 * n + (c.toNat - 48)) 0)

/-- JavaScript `parseInt(s)` (radix unspecified, decimal input): skip leading
whitespace, optional sign, then the maximal run of decimal digits; `none`
models the `NaN` result.  The `0x`-prefixed hexadecimal form `parseInt` also
accepts never occurs in the tool output and is not modelled. -/
def jsParseInt (s : String) : Option Int :=
  match s.toList.dropWhile Char.isWhitespace with
  | '-' :: rest => (parseDigits rest).map (fun n => -(n : Int))
  | '+' :: rest => (parseDigits rest).map (fun n => (n : Int))
  | cs => (parseDigits cs).map (fun n => (n : Int))

/-- JavaScript `parseInt(x) || 0` where `x` is an optional array element:
`parseInt(undefined)` is `NaN`, and `NaN || 0` (and `0 || 0`, and `-0 || 0`)
evaluate to `0`. -/
def parseIntOr0 : Option String → Int
  | none => 0
  | some t => (jsParseInt t).getD 0

/-! ## The enhanced `app.js` GPU probe (`checkGPUSupport`) -/

/-- The `info` record built by `checkGPUSupport` in the enhanced `app.js`. -/
structure GpuMetrics where
  name : String
  memoryTotal : Int
  memoryUsed : Int
  temperature : Int
  utilization : Int
deriving DecidableEq

/-- The full return value of `checkGPUSupport`. -/
structure GpuCheck where
  detected : Bool
  method : String
  details : String
  info : GpuMetrics
deriving DecidableEq

/-- The accelerator-related environment variables read by `checkGPUSupport`. -/
structure GpuEnv where
  nvidiaVisibleDevices : Option String
  cudaVisibleDevices : Option String
deriving DecidableEq

/-- The `hasNvidiaDevices` expression:
`process.env.NVIDIA_VISIBLE_DEVICES || process.env.CUDA_VISIBLE_DEVICES`. -/
def hasNvidiaDevices (env : GpuEnv) : Bool :=
  envTruthy env.nvidiaVisibleDevices || envTruthy env.cudaVisibleDevices

/-- Outcome of spawning the external `nvidia-smi` subprocess: its stdout when
the call returns, or `failure` when it throws (command absent, timeout). -/
inductive ToolOutcome
  | success (output : String)
  | failure
deriving DecidableEq

/-- One parsed line of `nvidia-smi` output, as built by `checkGPUSupport`:
`gpuData = lines[0].split(', ')`, `name: gpuData[0] || 'NVIDIA GPU'`, each
numeric field `parseInt(gpuData[i]) || 0`. -/
def parseGpuLine (line : String) : GpuMetrics :=
  let gpuData := jsSplit ", " line
  { name := if gpuData.headD "" = "" then "NVIDIA GPU" else gpuData.headD ""
    memoryTotal := parseIntOr0 (gpuData.get? 1)
    memoryUsed := parseIntOr0 (gpuData.get? 2)
    temperature := parseIntOr0 (gpuData.get? 3)
    utilization := parseIntOr0 (gpuData.get? 4) }

/-- The inner parsing block of `checkGPUSupport`: `if (output) { ... }` (the
only falsy string is `""`), `lines = output.trim().split('\n')`, then the
first line `lines[0]` is parsed; `none` when the output is falsy, in which
case `gpuInfo` stays `null`. -/
def parseNvidiaSmi (output : String) : Option GpuMetrics :=
  if output = "" then none
  else some (parseGpuLine ((jsSplit "\n" (jsTrim output)).headD ""))

/-- The value of the `gpuInfo` local after the inner try/catch: `null` when
the subprocess threw or printed a falsy output. -/
def toolGpuInfo : ToolOutcome → Option GpuMetrics
  | .failure => none
  | .success output => parseNvidiaSmi output

/-- Embedding of `checkGPUSupport` from the enhanced `app.js`.  The
`unexpectedError` flag models an exception reaching the outer catch block; the
function is total, so the probe never raises past its boundary.  Branch logic:
`detected: !!(hasNvidiaDevices || gpuInfo)`, `method` and `info` chosen by the
nested conditionals of the return statement. -/
def checkGPUSupport (env : GpuEnv) (tool : ToolOutcome)
    (unexpectedError : Bool) : GpuCheck :=
  if unexpectedError then
    { detected := false
      method := "Detection Failed"
      details := "GPU detection encountered an error"
      info := { name := "Unknown", memoryTotal := 0, memoryUsed := 0,
                temperature := 0, utilization := 0 } }
  else
    match toolGpuInfo tool with
    | some gpuInfo =>
      { detected := true
        method := "nvidia-smi"
        details := "Full GPU access available"
        info := gpuInfo }
    | none =>
      if hasNvidiaDevices env then
        { detected := true
          method := "Environment Variables"
          details := "Runtime Detection"
          info := { name := "NVIDIA L4", memoryTotal := 23034, memoryUsed := 0,
                    temperature := 42, utilization := 0 } }
      else
        { detected := false
          method := "Not Detected"
          details := "No GPU detected"
          info := { name := "No GPU", memoryTotal := 0, memoryUsed := 0,
                    temperature := 0, utilization := 0 } }

/-- Claim C7: the well-formed tool output line
`"Tesla T4, 16384, 1024, 55, 10"` parses to the record
`{name := "Tesla T4", memoryTotal := 16384, memoryUsed := 1024,
temperature := 55, utilization := 10}`. -/
theorem parseNvidiaSmi_tesla :
    parseNvidiaSmi "Tesla T4, 16384, 1024, 55, 10" =
      some { name := "Tesla T4", memoryTotal := 16384, memoryUsed := 1024,
             temperature := 55, utilization := 10 } := by
  decide

/-! ## The enhanced `app.js` offload probe (`checkDockerOffload`) -/

/-- The offload-related environment of the process.  `checkDockerOffload`
reads only `DOCKER_OFFLOAD` and `OFFLOAD_ENABLED`; the accelerator variables
are carried so that the specification's predicate can be stated over the same
inputs, and are ignored by the implementation. -/
structure OffloadEnv where
  dockerOffload : Option String
  offloadEnabled : Option String
  nvidiaVisibleDevices : Option String
  cudaVisibleDevices : Option String
deriving DecidableEq

/-- The return value of `checkDockerOffload`.  In JavaScript the `enabled`
field is the raw value of `isContainer && (hostname.length === 12 ||
hasOffloadEnv)`, which may be a string or `undefined`; every consumer tests it
for truthiness only, so it is modelled by its truthiness. -/
structure OffloadStatus where
  enabled : Bool
  hostname : String
  container : Bool
deriving DecidableEq

/-- Embedding of `checkDockerOffload` from the enhanced `app.js`.
`markerExists` models `fs.existsSync('/.dockerenv')`, `hostname` models
`os.hostname()` (its JavaScript `.length` counts UTF-16 units, which agrees
with `String.length` on the ASCII hostnames involved), and `fsError` models an
exception reaching the catch block, which returns
`{enabled: false, hostname, container: false}`. -/
def checkDockerOffload (markerExists : Bool) (hostname : String)
    (env : OffloadEnv) (fsError : Bool) : OffloadStatus :=
  if fsError then
    { enabled := false, hostname := hostname, container := false }
  else
    let hasOffloadEnv := envTruthy env.dockerOffload || envTruthy env.offloadEnabled
    { enabled := markerExists && (hostname.length == 12 || hasOffloadEnv)
      hostname := hostname
      container := markerExists }

/-- The `enabled` condition as worded by the specification (for claim C1):
containerized AND (explicit offload variable set OR hostname length exactly 12
OR accelerator-related environment variables present). -/
def specOffloadEnabled (markerExists : Bool) (hostname : String)
    (env : OffloadEnv) : Bool :=
  markerExists &&
    (envTruthy env.dockerOffload || envTruthy env.offloadEnabled ||
      hostname.length == 12 ||
      envTruthy env.nvidiaVisibleDevices || envTruthy env.cudaVisibleDevices)

/-- Claim C1, counterexample: inside a container, with a hostname of length 4,
no offload variable, but `NVIDIA_VISIBLE_DEVICES=0`, the specification's
condition holds yet `checkDockerOffload` reports `enabled = false` — the
accelerator variables are not consulted by the code. -/
theorem checkDockerOffload_accel_env_ignored :
    (checkDockerOffload true "host"
        ⟨none, none, some "0", none⟩ false).enabled = false ∧
      specOffloadEnabled true "host" ⟨none, none, some "0", none⟩ = true := by
  decide

/-- Claim C1, amended: `checkDockerOffload` reports `enabled = true` iff the
container marker exists AND (the hostname length is exactly 12 OR an explicit
offload environment variable is set); accelerator-related environment
variables play no role. -/
theorem checkDockerOffload_enabled_iff (markerExists : Bool) (hostname : String)
    (env : OffloadEnv) :
    (checkDockerOffload markerExists hostname env false).enabled = true ↔
      (markerExists = true ∧
        (hostname.length = 12 ∨ envTruthy env.dockerOffload = true ∨
          envTruthy env.offloadEnabled = true)) := by
  simp [checkDockerOffload, Bool.and_eq_true, Bool.or_eq_true, beq_iff_eq]

/-- Witness for the amended claim C1 at a concrete input: a 12-character
hostname inside a container enables offload. -/
theorem checkDockerOffload_enabled_iff_witness :
    (checkDockerOffload true "abcdefghijkl"
      ⟨none, none, none, none⟩ false).enabled = true :=
  (checkDockerOffload_enabled_iff true "abcdefghijkl"
    ⟨none, none, none, none⟩).mpr ⟨rfl, Or.inl (by decide)⟩

/-- Claim C8: when the container marker is absent, `enabled` is `false`,
whatever the hostname, the environment variables and the error path. -/
theorem checkDockerOffload_requires_marker (hostname : String)
    (env : OffloadEnv) (fsError : Bool) :
    (checkDockerOffload false hostname env fsError).enabled = false := by
  cases fsError <;> simp [checkDockerOffload]

/-! ## The enhanced `app.js` system snapshot (`getSystemInfo`) -/

/-- JavaScript `Math.round`: round half toward positive infinity. -/
def jsRound (q : ℚ) : ℤ := ⌊q + 1 / 2⌋

/-- The memory-related fields of the snapshot built by `getSystemInfo` (the
remaining fields — hostname, platform, uptime, versions — are opaque strings
passed through unchanged and carry no logic). -/
structure SystemInfo where
  totalMemory : ℤ
  freeMemory : ℤ
  usedMemory : ℤ
  memoryUsagePercent : Option ℤ
deriving DecidableEq

/-- Embedding of the memory computations of `getSystemInfo` from the enhanced
`app.js`, over exact rationals idealising IEEE doubles:
`usedMem = totalMem - freeMem`, the GB fields are
`Math.round(x / (1024*1024*1024))`, and `memoryUsagePercent =
Math.round((usedMem / totalMem) * 100)`.  The code has no guard on
`totalMem = 0`: there the floating-point division yields `NaN` (or `±Infinity`)
and `Math.round` of it is not an integer; `none` encodes that non-finite
outcome, `some` the finite one. -/
def getSystemInfo (totalMem freeMem : ℚ) : SystemInfo :=
  let usedMem := totalMem - freeMem
  { totalMemory := jsRound (totalMem / (1024 * 1024 * 1024))
    freeMemory := jsRound (freeMem / (1024 * 1024 * 1024))
    usedMemory := jsRound (usedMem / (1024 * 1024 * 1024))
    memoryUsagePercent :=
      if totalMem = 0 then none
      else some (jsRound (usedMem / totalMem * 100)) }

/-- Claim C2, counterexample: at `totalMem = 0` the code performs the division
anyway; the result is the non-finite `NaN`, not the integer `0` the claim
promises. -/
theorem getSystemInfo_total_zero_not_zero :
    (getSystemInfo 0 0).memoryUsagePercent ≠ some 0 ∧
      (getSystemInfo 0 0).memoryUsagePercent = none := by
  constructor <;> simp [getSystemInfo]

/-- Claim C2, amended: whenever total memory is positive,
`memoryUsagePercent` is `round(usedMemoryGB / totalMemoryGB * 100)` (stated on
the exact gigabyte values, whose ratio equals the byte ratio the code
computes); when total memory is zero the division is still performed and the
result is the non-finite `NaN`, not `0`. -/
theorem getSystemInfo_memPercent (totalMem freeMem : ℚ) (h : 0 < totalMem) :
    (getSystemInfo totalMem freeMem).memoryUsagePercent =
      some (jsRound (((totalMem - freeMem) / (1024 * 1024 * 1024)) /
        (totalMem / (1024 * 1024 * 1024)) * 100)) := by
  have hne : totalMem ≠ 0 := ne_of_gt h
  have harg : ((totalMem - freeMem) / (1024 * 1024 * 1024)) /
      (totalMem / (1024 * 1024 * 1024)) = (totalMem - freeMem) / totalMem := by
    field_simp
  simp only [getSystemInfo, if_neg hne, harg]

/-- Witness for the amended claim C2 at `totalMem = 2^31`, `freeMem = 2^30`
bytes (2 GB total, 1 GB free). -/
theorem getSystemInfo_memPercent_witness :
    (0 : ℚ) < 2 ^ 31 ∧
      (getSystemInfo (2 ^ 31) (2 ^ 30)).memoryUsagePercent =
        some (jsRound (((2 ^ 31 - 2 ^ 30 : ℚ) / (1024 * 1024 * 1024)) /
          ((2 ^ 31 : ℚ) / (1024 * 1024 * 1024)) * 100)) :=
  ⟨by norm_num, getSystemInfo_memPercent (2 ^ 31) (2 ^ 30) (by norm_num)⟩

/-! ## Claims about `checkGPUSupport` -/

/-- First line of a string, as the code extracts it: `s.split('\n')[0]`. -/
def firstLine (s : String) : String := (jsSplit "\n" s).headD ""

/-- Claim C3, counterexample: the one-field output `"abc"` (fewer than 5
fields, no numeric field at all) is not treated as a failure — the probe
still reports a tool-tier success. -/
theorem parseNvidiaSmi_short_line_still_success :
    (jsSplit ", " "abc").length < 5 ∧
      (checkGPUSupport ⟨none, none⟩ (.success "abc") false).detected = true ∧
      (checkGPUSupport ⟨none, none⟩ (.success "abc") false).method =
        "nvidia-smi" := by
  decide

/-- Claim C3, amended: the parser reads the first line only (the parse result
depends on the output only through the first line of its trimmed form), but a
malformed record is not treated as a failure: every truthy (non-empty) tool
output — even with fewer than 5 fields or non-numeric numeric fields — yields
a tool-tier success, the missing or unparseable fields replaced by per-field
defaults. -/
theorem parseNvidiaSmi_first_line_only :
    (∀ out₁ out₂ : String, out₁ ≠ "" → out₂ ≠ "" →
        firstLine (jsTrim out₁) = firstLine (jsTrim out₂) →
        parseNvidiaSmi out₁ = parseNvidiaSmi out₂) ∧
      (∀ (env : GpuEnv) (output : String), output ≠ "" →
        (checkGPUSupport env (.success output) false).detected = true ∧
        (checkGPUSupport env (.success output) false).method = "nvidia-smi") := by
  constructor
  · intro out₁ out₂ h₁ h₂ hEq
    unfold firstLine at hEq
    simp only [parseNvidiaSmi, if_neg h₁, if_neg h₂, hEq]
  · intro env output h
    have hsome : parseNvidiaSmi output = some (parseGpuLine
        ((jsSplit "\n" (jsTrim output)).headD "")) := by
      simp [parseNvidiaSmi, if_neg h]
    simp [checkGPUSupport, toolGpuInfo, hsome]

/-- Witness for the amended claim C3: the second line of `"a\nb"` is ignored,
and the malformed output `"abc"` is a tool-tier success. -/
theorem parseNvidiaSmi_first_line_only_witness :
    parseNvidiaSmi "a\nb" = parseNvidiaSmi "a" ∧
      (checkGPUSupport ⟨none, none⟩ (.success "abc") false).method =
        "nvidia-smi" :=
  ⟨parseNvidiaSmi_first_line_only.1 "a\nb" "a" (by decide) (by decide)
      (by decide),
    (parseNvidiaSmi_first_line_only.2 ⟨none, none⟩ "abc" (by decide)).2⟩

/-- Claim C4: with both accelerator environment variables absent and the
external tool unavailable, the probe reports `detected = false`,
`method = "Not Detected"` and all numeric fields zero. -/
theorem checkGPUSupport_not_detected (env : GpuEnv)
    (h₁ : env.nvidiaVisibleDevices = none)
    (h₂ : env.cudaVisibleDevices = none) :
    checkGPUSupport env .failure false =
      { detected := false
        method := "Not Detected"
        details := "No GPU detected"
        info := { name := "No GPU", memoryTotal := 0, memoryUsed := 0,
                  temperature := 0, utilization := 0 } } := by
  have henv : hasNvidiaDevices env = false := by
    simp [hasNvidiaDevices, h₁, h₂, envTruthy]
  simp [checkGPUSupport, toolGpuInfo, henv]

/-- Witness for claim C4 at the concrete empty environment. -/
theorem checkGPUSupport_not_detected_witness :
    checkGPUSupport ⟨none, none⟩ .failure false =
      { detected := false
        method := "Not Detected"
        details := "No GPU detected"
        info := { name := "No GPU", memoryTotal := 0, memoryUsed := 0,
                  temperature := 0, utilization := 0 } } :=
  checkGPUSupport_not_detected ⟨none, none⟩ rfl rfl

/-- Claim C5: with an accelerator environment variable set (to a truthy value)
and the external tool unavailable, the probe reports `detected = true`,
`method = "Environment Variables"`, and the numeric fields are the constant
placeholders `NVIDIA L4 / 23034 / 0 / 42 / 0`, not measured values. -/
theorem checkGPUSupport_env_fallback (env : GpuEnv)
    (h : hasNvidiaDevices env = true) :
    checkGPUSupport env .failure false =
      { detected := true
        method := "Environment Variables"
        details := "Runtime Detection"
        info := { name := "NVIDIA L4", memoryTotal := 23034, memoryUsed := 0,
                  temperature := 42, utilization := 0 } } := by
  simp [checkGPUSupport, toolGpuInfo, h]

/-- Witness for claim C5 with `NVIDIA_VISIBLE_DEVICES=0`. -/
theorem checkGPUSupport_env_fallback_witness :
    checkGPUSupport ⟨some "0", none⟩ .failure false =
      { detected := true
        method := "Environment Variables"
        details := "Runtime Detection"
        info := { name := "NVIDIA L4", memoryTotal := 23034, memoryUsed := 0,
                  temperature := 42, utilization := 0 } } :=
  checkGPUSupport_env_fallback ⟨some "0", none⟩ (by decide)

/-- Claim C6: an unexpected exception anywhere in the probe lands in the outer
catch block and yields `detected = false`, `method = "Detection Failed"`, all
numeric fields zero — the probe itself is a total function and never raises
past its boundary. -/
theorem checkGPUSupport_error_degrades (env : GpuEnv) (tool : ToolOutcome) :
    checkGPUSupport env tool true =
      { detected := false
        method := "Detection Failed"
        details := "GPU detection encountered an error"
        info := { name := "Unknown", memoryTotal := 0, memoryUsed := 0,
                  temperature := 0, utilization := 0 } } := rfl

/-! ## The top-level `app.js` GPU probe (`getGPUInfo`) -/

/-- One entry of the list returned by `getGPUInfo` in the top-level `app.js`;
its metric fields are display strings (`"16384 MB"`, `"N/A"`, ...). -/
structure AppGpuEntry where
  name : String
  memoryTotal : String
  memoryUsed : String
  temperature : String
  utilization : String
  available : Bool
  note : Option String
deriving DecidableEq

/-- The environment variables read by the top-level `getGPUInfo` fallback:
`NVIDIA_VISIBLE_DEVICES`, `CUDA_VISIBLE_DEVICES`, `GPU_ENABLED`. -/
structure AppEnv where
  nvidiaVisibleDevices : Option String
  cudaVisibleDevices : Option String
  gpuEnabled : Option String
deriving DecidableEq

/-- The `hasGpuEnv` expression of the top-level `getGPUInfo`. -/
def hasGpuEnv (env : AppEnv) : Bool :=
  envTruthy env.nvidiaVisibleDevices || envTruthy env.cudaVisibleDevices ||
    envTruthy env.gpuEnabled

/-- The single fallback entry returned by the catch branch of the top-level
`getGPUInfo`. -/
def fallbackGpuEntry (env : AppEnv) : AppGpuEntry :=
  { name := if hasGpuEnv env then "GPU Environment Detected"
            else "No GPU Available"
    memoryTotal := "N/A"
    memoryUsed := "N/A"
    temperature := "N/A"
    utilization := "N/A"
    available := hasGpuEnv env
    note := some (if hasGpuEnv env then
        "GPU runtime detected but nvidia-smi not available"
      else "Run with --gpus all to enable GPU support") }

/-- One entry of the success branch:
`const [name, memTotal, memUsed, temp, util] = line.split(', ')` followed by
trimming and unit suffixes.  Only evaluated on lines with at least 5 fields
(see `lineWellFormed`); on shorter lines the JavaScript code throws before
building the entry. -/
def mkGpuEntry (line : String) : AppGpuEntry :=
  let fields := jsSplit ", " line
  { name := jsTrim (fields.headD "")
    memoryTotal := jsTrim (fields.getD 1 "") ++ " MB"
    memoryUsed := jsTrim (fields.getD 2 "") ++ " MB"
    temperature := jsTrim (fields.getD 3 "") ++ "°C"
    utilization := jsTrim (fields.getD 4 "") ++ "%"
    available := true
    note := none }

/-- A line the success branch can process without throwing: destructuring
takes the first five fields, and `.trim()` on an `undefined` field throws a
`TypeError`, so all five must be present. -/
def lineWellFormed (line : String) : Bool :=
  decide (5 ≤ (jsSplit ", " line).length)

/-- Embedding of `getGPUInfo` from the top-level `app.js`.  On subprocess
success the stdout is trimmed and split into lines and each line becomes one
entry; if any line has fewer than 5 fields the `TypeError` raised inside the
`try` lands in the same `catch` as a failed subprocess, which returns the
single fallback entry. -/
def getGPUInfo (tool : ToolOutcome) (env : AppEnv) : List AppGpuEntry :=
  match tool with
  | .failure => [fallbackGpuEntry env]
  | .success stdout =>
    let gpuLines := jsSplit "\n" (jsTrim stdout)
    if gpuLines.all lineWellFormed then gpuLines.map mkGpuEntry
    else [fallbackGpuEntry env]

/-- The bounded splitter never returns the empty list: every branch produces
at least one segment (JavaScript `split` always returns a non-empty array). -/
theorem splitGo_ne_nil (c0 : Char) (sep : List Char) :
    ∀ (fuel : Nat) (s : List Char), splitGo c0 sep fuel s ≠ [] := by
  intro fuel
  induction fuel with
  | zero => intro s; cases s <;> simp [splitGo]
  | succ n ih =>
    intro s
    cases s with
    | nil => simp [splitGo]
    | cons c cs =>
      simp only [splitGo]
      split
      · simp
      · cases hsg : splitGo c0 sep n cs <;> simp [hsg]

/-- `jsSplit` never returns the empty list. -/
theorem jsSplit_ne_nil (sep s : String) : jsSplit sep s ≠ [] := by
  unfold jsSplit
  cases sep.toList with
  | nil => simp
  | cons c cs => simp [splitGo_ne_nil]

/-- Claim C9: whenever a probe result reports no accelerator, its numeric
fields are the zero/sentinel values and its name is one of the fixed
no-accelerator labels — in `checkGPUSupport` all metrics are `0` and the name
is `"No GPU"` (`"Unknown"` on the detection-failure tier), and in the
top-level `getGPUInfo` every unavailable entry carries `"N/A"` sentinels and
the name `"No GPU Available"`. -/
theorem gpu_undetected_invariant :
    (∀ (env : GpuEnv) (tool : ToolOutcome) (err : Bool),
        (checkGPUSupport env tool err).detected = false →
        (checkGPUSupport env tool err).info.memoryTotal = 0 ∧
        (checkGPUSupport env tool err).info.memoryUsed = 0 ∧
        (checkGPUSupport env tool err).info.temperature = 0 ∧
        (checkGPUSupport env tool err).info.utilization = 0 ∧
        ((checkGPUSupport env tool err).info.name = "No GPU" ∨
          (checkGPUSupport env tool err).info.name = "Unknown")) ∧
      (∀ (tool : ToolOutcome) (env : AppEnv) (g : AppGpuEntry),
        g ∈ getGPUInfo tool env → g.available = false →
        g.memoryTotal = "N/A" ∧ g.memoryUsed = "N/A" ∧
        g.temperature = "N/A" ∧ g.utilization = "N/A" ∧
        g.name = "No GPU Available") := by
  constructor
  · intro env tool err h
    cases err with
    | true => exact ⟨rfl, rfl, rfl, rfl, Or.inr rfl⟩
    | false =>
      cases htool : toolGpuInfo tool with
      | some m => simp [checkGPUSupport, htool] at h
      | none =>
        cases henv : hasNvidiaDevices env with
        | true => simp [checkGPUSupport, htool, henv] at h
        | false => simp [checkGPUSupport, htool, henv]
  · intro tool env g hmem havail
    cases tool with
    | failure =>
      simp only [getGPUInfo, List.mem_singleton] at hmem
      subst hmem
      have henv : hasGpuEnv env = false := by
        simpa [fallbackGpuEntry] using havail
      simp [fallbackGpuEntry, henv]
    | success stdout =>
      simp only [getGPUInfo] at hmem
      split at hmem
      · rcases List.mem_map.mp hmem with ⟨l, _, rfl⟩
        simp [mkGpuEntry] at havail
      · simp only [List.mem_singleton] at hmem
        subst hmem
        have henv : hasGpuEnv env = false := by
          simpa [fallbackGpuEntry] using havail
        simp [fallbackGpuEntry, henv]

/-- Witness for claim C9: the not-detected result of `checkGPUSupport` and
the fallback entry of `getGPUInfo`, both at the empty environment. -/
theorem gpu_undetected_invariant_witness :
    (checkGPUSupport ⟨none, none⟩ .failure false).info.memoryTotal = 0 ∧
      (fallbackGpuEntry ⟨none, none, none⟩).name = "No GPU Available" :=
  ⟨(gpu_undetected_invariant.1 ⟨none, none⟩ .failure false (by decide)).1,
    (gpu_undetected_invariant.2 .failure ⟨none, none, none⟩
      (fallbackGpuEntry ⟨none, none, none⟩) (by decide) (by decide)).2.2.2.2⟩

/-- Claim C10: `getGPUInfo` always returns a non-empty list — the fallback
branch returns exactly one entry and the success branch one entry per output
line (a split never being empty) — so the `gpuInfo[0]` access performed by
the HTTP handlers is always defined. -/
theorem getGPUInfo_entries :
    (∀ (tool : ToolOutcome) (env : AppEnv), 0 < (getGPUInfo tool env).length) ∧
      (∀ env : AppEnv, (getGPUInfo .failure env).length = 1) ∧
      (∀ (stdout : String) (env : AppEnv),
        (jsSplit "\n" (jsTrim stdout)).all lineWellFormed = true →
        (getGPUInfo (.success stdout) env).length =
          (jsSplit "\n" (jsTrim stdout)).length) := by
  refine ⟨?_, ?_, ?_⟩
  · intro tool env
    cases tool with
    | failure => simp [getGPUInfo]
    | success stdout =>
      simp only [getGPUInfo]
      split
      · rw [List.length_map]
        exact List.length_pos.mpr (jsSplit_ne_nil "\n" (jsTrim stdout))
      · simp
  · intro env; rfl
  · intro stdout env h
    simp [getGPUInfo, h, List.length_map]

/-- Witness for claim C10 on a concrete well-formed tool output. -/
theorem getGPUInfo_entries_witness :
    (getGPUInfo (.success "a, b, c, d, e") ⟨none, none, none⟩).length =
      (jsSplit "\n" (jsTrim "a, b, c, d, e")).length :=
  getGPUInfo_entries.2.2 "a, b, c, d, e" ⟨none, none, none⟩ (by decide)
